import Mathlib

/-!
Verification of the documind retrieval-augmented QA system.

Shallow embedding of the Python sources:
  - `DocumentProcessor` (document_processor.py): ingestion of files into chunk records;
  - `RAGPipeline` (rag_pipeline.py): vector-store lifecycle and the query engine;
  - `RetrievalEvaluator` (retrieval_evaluation.py): retrieval metrics and best-approach selection;
  - `LLMEvaluator` (llm_evaluation.py): heuristic answer scoring;
  - `FeedbackStorage` (feedback_storage.py): the JSON telemetry store.

External collaborators (Google embeddings, the LLM, the Qdrant index service, the
filesystem, langchain's text splitter) are modelled as oracle parameters or as
explicit state, exactly at the call boundary the Python code uses.  Python floats
on the exact decimal constants used by the code are modelled as rationals.
-/

/-! ## Python string primitives used by the sources -/

/-- Python `s.lower()` (ASCII inputs in this code base). -/
def pyLower (s : String) : String := String.mk (s.data.map Char.toLower)

/-- Python `len(s)`: number of characters. -/
def pyLen (s : String) : Nat := s.data.length

/-- Python `s[:n]`: the first `n` characters. -/
def pySlice (n : Nat) (s : String) : String := String.mk (s.data.take n)

/-- Python `s.strip()`: trim whitespace at both ends. -/
def pyStrip (s : String) : String :=
  String.mk (((s.data.dropWhile Char.isWhitespace).reverse.dropWhile Char.isWhitespace).reverse)

/-- Tokenizer for Python `s.split()` with no argument: whitespace runs separate
tokens, empty tokens are dropped; `acc` holds the reversed current token. -/
def wsTokens : List Char → List Char → List String
  | acc, [] => if acc = [] then [] else [String.mk acc.reverse]
  | acc, c :: rest =>
    if c.isWhitespace then
      (if acc = [] then [] else [String.mk acc.reverse]) ++ wsTokens [] rest
    else wsTokens (c :: acc) rest

/-- Python `s.split()` with no argument. `len(answer.split())` is the code's word
count. -/
def pySplitWs (s : String) : List String := wsTokens [] s.data

/-- Splitter for Python `s.split(sep)` with a one-character separator: empty parts
are kept; `acc` holds the reversed current part. -/
def charSplit (sep : Char) : List Char → List Char → List String
  | acc, [] => [String.mk acc.reverse]
  | acc, c :: rest =>
    if c = sep then String.mk acc.reverse :: charSplit sep [] rest
    else charSplit sep (c :: acc) rest

/-- Python `s.split(sep)` for a one-character separator (the code only splits on
`'.'` and `'/'`). -/
def pySplitChar (sep : Char) (s : String) : List String := charSplit sep [] s.data

/-- Python `needle in hay` on strings: substring occurrence. -/
def pyContains (needle hay : String) : Bool :=
  hay.data.tails.any (fun t => needle.data.isPrefixOf t)

/-! ## DocumentProcessor (document_processor.py)

Ingestion of one file into chunk records.  Text extraction (PyMuPDF / UTF-8 file
reads) and langchain's `RecursiveCharacterTextSplitter.split_text` are external
collaborators, passed in as oracles.  A chunk record is a langchain `Document`
whose metadata fields are exactly the ones the code writes. -/

/-- A langchain `Document` as built by `DocumentProcessor.process_document`:
content plus the metadata keys `source`, `chunk_id`, `total_chunks`, `file_type`. -/
structure Document where
  page_content : String
  source : String
  chunk_id : Nat
  total_chunks : Nat
  file_type : String
deriving DecidableEq

namespace DocumentProcessor

/-- `os.path.basename`: the part of the path after the last `/`. -/
def basename (path : String) : String :=
  ((pySplitChar '/' path).getLast?).getD ""

/-- The extension component of `os.path.splitext(file_path)[1]`: the suffix of the
base name starting at its last dot, provided some earlier character of the base
name is not a dot (so `".bashrc"` has no extension, `"a.tar.gz"` has `".gz"`). -/
def splitextExt (path : String) : String :=
  let cs := (basename path).data
  if cs.contains '.' then
    let r := cs.reverse
    let i := r.indexOf '.'
    let head := cs.take (cs.length - (i + 1))
    if head.any (fun c => c ≠ '.') then String.mk ((r.take (i + 1)).reverse) else ""
  else ""

/-- The external text-extraction collaborators: PyMuPDF for `.pdf` files and the
UTF-8 file read for `.txt` files, each mapping a path to its extracted text
(their internal error handling already degrades to `""`). -/
structure ExtractOracles where
  pdf : String → String
  txt : String → String

/-- The extraction step of `process_document`: dispatch on the lower-cased
extension; unsupported extensions extract nothing (the `return []` branch). -/
def extracted_text (oracles : ExtractOracles) (file_path : String) : Option String :=
  let file_ext := pyLower (splitextExt file_path)
  if file_ext = ".pdf" then some (oracles.pdf file_path)
  else if file_ext = ".txt" then some (oracles.txt file_path)
  else none

/-- The `for i, chunk in enumerate(chunks)` loop of `process_document`, carrying
the running index `i`. -/
def buildDocs (sname file_ext : String) (total : Nat) : Nat → List String → List Document
  | _, [] => []
  | i, chunk :: rest =>
    { page_content := chunk, source := sname, chunk_id := i,
      total_chunks := total, file_type := file_ext } :: buildDocs sname file_ext total (i + 1) rest

/-- `process_document`: extract text for the file's type, return `[]` on
unsupported types or blank (after strip) text, otherwise split into chunks and
emit one record per chunk with `chunk_id = position` and
`total_chunks = len(chunks)`. -/
def process_document (oracles : ExtractOracles) (splitter : String → List String)
    (file_path : String) (source_name : Option String) : List Document :=
  let sname := source_name.getD (basename file_path)
  let file_ext := pyLower (splitextExt file_path)
  match extracted_text oracles file_path with
  | none => []
  | some text =>
    if pyStrip text = "" then []
    else
      let chunks := splitter text
      buildDocs sname file_ext chunks.length 0 chunks

end DocumentProcessor

/-- Concrete extraction oracles for evaluating the ingestion model: a `.txt` read
returning four words, a `.pdf` read returning nothing. -/
def wOracles : DocumentProcessor.ExtractOracles :=
  ⟨fun _ => "", fun _ => "alpha beta gamma delta"⟩

/-- Concrete two-chunk splitter for evaluating the ingestion model. -/
def wSplitter : String → List String :=
  fun t => [pySlice 11 t, String.mk (t.data.drop 11)]

/-! ## RAGPipeline (rag_pipeline.py)

Vector-store lifecycle and the query engine.  The Qdrant index service is
modelled by the point count of the single named collection (`Option Nat`, `none`
when the collection is absent); the langchain store object and QA chain held by
the pipeline are modelled by flags.  `Qdrant.from_documents` — the only call that
reaches the embedding provider during bulk creation — creates the collection when
it is absent and upserts every document passed to it, and is recorded as the list
of document batches handed to the provider.  Fallible operations return
`Except String`, an `Except.error` being an uncaught Python exception. -/

namespace RAGPipeline

/-- The dead constant of `create_vector_store`: `batch_size = 5000  # Stay under
the 5461 limit with buffer`. -/
def batch_size : Nat := 5000

/-- Pipeline state: the named Qdrant collection's point count (if the collection
exists), and whether `self.vector_store` / `self.qa_chain` are set. -/
structure PipelineState where
  collection : Option Nat
  vector_store : Bool
  qa_chain : Bool
deriving DecidableEq

/-- `create_vector_store`: raises `ValueError` on an empty document list,
otherwise issues one `Qdrant.from_documents` call carrying the whole list — the
`batch_size` variable is never used — and returns the resulting point count
together with the batches handed to the embedding provider. -/
def create_vector_store (coll : Option Nat) (documents : List Document) :
    Except String (Nat × List (List Document)) :=
  if documents = [] then .error "No documents provided to create vector store"
  else .ok (coll.getD 0 + documents.length, [documents])

/-- `load_vector_store`: a store object is obtained iff the named collection
exists in Qdrant. -/
def load_vector_store (st : PipelineState) : Bool :=
  st.collection.isSome

/-- `initialize_vector_store`: with `force_recreate`, require documents, drop the
collection (an absent collection raises inside `try` and is ignored), and create;
otherwise load the existing store, discard it again when the collection reports
zero points, and create only when no usable store was loaded — from the
`documents` argument when given, else from the data directory (`dataDirDocs`, the
oracle for `process_directory("data")`), returning `false` when there is nothing
to index. -/
def initVectorStore (st : PipelineState) (documents : Option (List Document))
    (dataDirDocs : List Document) (force_recreate : Bool) :
    Except String (PipelineState × Bool) :=
  if force_recreate then
    match documents with
    | none => .error "Documents must be provided to recreate vector store"
    | some docs =>
      match create_vector_store none docs with
      | .error e => .error e
      | .ok (n, _) => .ok ({ st with collection := some n, vector_store := true }, true)
  else
    let loaded := load_vector_store st
    let loaded := loaded && !(st.collection == some 0)
    if loaded then
      .ok ({ st with vector_store := true }, true)
    else
      let docs := documents.getD dataDirDocs
      if docs = [] then .ok ({ st with vector_store := false }, false)
      else
        match create_vector_store st.collection docs with
        | .error e => .error e
        | .ok (n, _) => .ok ({ st with collection := some n, vector_store := true }, true)

/-- The result of `get_vector_store_stats`: the "No vector store initialized"
status, the active status with its `total_documents` count, or the degraded
error status. -/
inductive Stats where
  | noStore
  | active (total_documents : Nat)
  | errored
deriving DecidableEq

/-- `get_vector_store_stats`: requires `self.vector_store`; reads the collection's
point count from Qdrant, degrading to an error status when the collection is
absent. -/
def get_vector_store_stats (st : PipelineState) : Stats :=
  if st.vector_store = false then .noStore
  else
    match st.collection with
    | some n => .active n
    | none => .errored

/-- A retrieved source as packaged by `query`: a 200-character content preview
with an ellipsis, the source name, and the chunk id from the metadata. -/
structure SourceInfo where
  content : String
  source : String
  chunk_id : Nat
deriving DecidableEq

/-- The raw output of invoking the QA chain (`result["result"]` and
`result["source_documents"]`). -/
structure ChainResult where
  result : String
  source_documents : List Document

/-- The Query Result dictionary built by `query`. -/
structure QueryResponse where
  question : String
  answer : String
  source_documents : List Document
  sources : List SourceInfo
  num_sources : Nat
  error : Option String

/-- The per-document source record built inside `query`. -/
def mkSourceInfo (d : Document) : SourceInfo :=
  { content := pySlice 200 d.page_content ++ "..."
    source := d.source
    chunk_id := d.chunk_id }

/-- `query`: when no QA chain is built yet, `create_qa_chain` runs outside the
`try` block and raises `ValueError` if the vector store is not initialized;
otherwise the chain invocation is wrapped in `try`, and any exception it raises
is converted into a result whose answer is an error message, whose sources are
empty, and whose `error` field carries the cause.  The external chain (retrieval
plus generation) is the oracle `chain`. -/
def query (st : PipelineState) (chain : String → Except String ChainResult)
    (question : String) : Except String QueryResponse :=
  if st.qa_chain = false ∧ st.vector_store = false then
    .error "Vector store not initialized"
  else
    match chain question with
    | .ok r =>
      let sources := r.source_documents.map mkSourceInfo
      .ok { question := question, answer := r.result,
            source_documents := r.source_documents,
            sources := sources, num_sources := sources.length, error := none }
    | .error e =>
      .ok { question := question,
            answer := "An error occurred while processing your question: " ++ e,
            source_documents := [], sources := [], num_sources := 0, error := some e }

end RAGPipeline

/-- A sample chunk record. -/
def someDoc : Document :=
  { page_content := "c", source := "s", chunk_id := 0, total_chunks := 1, file_type := ".txt" }

/-- The fully uninitialized pipeline state: no collection, no store object, no QA
chain. -/
def uninitState : RAGPipeline.PipelineState :=
  { collection := none, vector_store := false, qa_chain := false }

/-- A chain oracle that always succeeds. -/
def trivialChain : String → Except String RAGPipeline.ChainResult :=
  fun _ => .ok { result := "ok", source_documents := [] }

/-- A chain oracle that always raises. -/
def failingChain : String → Except String RAGPipeline.ChainResult :=
  fun _ => .error "provider unavailable"

/-- A state whose vector store is loaded (the QA chain not yet built). -/
def readyState : RAGPipeline.PipelineState :=
  { collection := some 3, vector_store := true, qa_chain := false }

/-- A state with an existing collection of 3 points, before any store object is
loaded. -/
def populatedState : RAGPipeline.PipelineState :=
  { collection := some 3, vector_store := false, qa_chain := false }

/-- A state with an existing but empty (zero-point) collection. -/
def zeroPointState : RAGPipeline.PipelineState :=
  { collection := some 0, vector_store := false, qa_chain := false }

/-! ## FeedbackStorage (feedback_storage.py)

The telemetry store is a single JSON file holding two arrays, `feedback` and
`interactions`.  The file's state is modelled by `FileContent`: missing file,
corrupt (non-parseable) content, or a parsed store. `datetime.now()` is passed
in as the `now` argument. -/

namespace FeedbackStorage

/-- One entry of the `feedback` array (see `add_feedback` in feedback_storage.py). -/
structure FeedbackEntry where
  timestamp : String
  question : String
  answer_preview : String
  feedback : String
  sources_count : Int
  comment : Option String
  answer_length : Nat
deriving DecidableEq

/-- One entry of the `interactions` array (see `add_interaction`). -/
structure InteractionEntry where
  timestamp : String
  question : String
  question_length : Nat
  answer_length : Int
  sources_count : Int
  response_time_seconds : ℚ
deriving DecidableEq

/-- The parsed content of the store file: `{"feedback": [...], "interactions": [...]}`. -/
structure StoreData where
  feedback : List FeedbackEntry
  interactions : List InteractionEntry
deriving DecidableEq

/-- State of the telemetry store file on disk. -/
inductive FileContent where
  | missing
  | corrupt
  | valid (data : StoreData)
deriving DecidableEq

/-- `_load_data`: `json.load` on the file; `JSONDecodeError` (corrupt) and
`FileNotFoundError` (missing) are caught and degrade to the empty store. -/
def load_data : FileContent → StoreData
  | .missing => ⟨[], []⟩
  | .corrupt => ⟨[], []⟩
  | .valid d => d

/-- `get_all_feedback`: load and return the `feedback` array. -/
def get_all_feedback (fc : FileContent) : List FeedbackEntry :=
  (load_data fc).feedback

/-- `get_all_interactions`: load and return the `interactions` array. -/
def get_all_interactions (fc : FileContent) : List InteractionEntry :=
  (load_data fc).interactions

/-- The entry built by `add_feedback`: a 200-character answer preview (with an
ellipsis only when the answer is longer than 200 characters) and the word count
of the answer. -/
def mkFeedbackEntry (now question answer feedback_type : String)
    (sources_count : Int) (comment : Option String) : FeedbackEntry :=
  { timestamp := now
    question := question
    answer_preview := if 200 < pyLen answer then pySlice 200 answer ++ "..." else answer
    feedback := feedback_type
    sources_count := sources_count
    comment := comment
    answer_length := (pySplitWs answer).length }

/-- `add_feedback`: load, append one entry to the `feedback` array, save. -/
def add_feedback (fc : FileContent) (now question answer feedback_type : String)
    (sources_count : Int) (comment : Option String) : FileContent :=
  let data := load_data fc
  .valid { data with
    feedback := data.feedback ++ [mkFeedbackEntry now question answer feedback_type sources_count comment] }

/-- The entry built by `add_interaction`. -/
def mkInteractionEntry (now question : String) (answer_length : Int)
    (sources_count : Int) (response_time : ℚ) : InteractionEntry :=
  { timestamp := now
    question := question
    question_length := (pySplitWs question).length
    answer_length := answer_length
    sources_count := sources_count
    response_time_seconds := response_time }

/-- `add_interaction`: load, append one entry to the `interactions` array, save. -/
def add_interaction (fc : FileContent) (now question : String) (answer_length : Int)
    (sources_count : Int) (response_time : ℚ) : FileContent :=
  let data := load_data fc
  .valid { data with
    interactions := data.interactions ++ [mkInteractionEntry now question answer_length sources_count response_time] }

end FeedbackStorage

/-! ## RetrievalEvaluator (retrieval_evaluation.py)

The per-query relevance computation of `_evaluate_approach` and the ranking of
`select_best_approach`.  Retrieved documents enter as their contents (the only
field the evaluation reads). -/

namespace RetrievalEvaluator

/-- `sum(1 for keyword in expected_keywords if keyword.lower() in content_lower)`:
the number of expected keywords occurring case-insensitively in the content. -/
def keywordMatchCount (expected_keywords : List String) (content : String) : Nat :=
  let content_lower := pyLower content
  (expected_keywords.filter (fun keyword => pyContains (pyLower keyword) content_lower)).length

/-- The per-query record appended to `query_results` by `_evaluate_approach`. -/
structure QueryEval where
  retrieved_count : Nat
  relevant_count : Nat
  keyword_match_count : Nat
  precision : ℚ
  avg_keyword_matches : ℚ
deriving DecidableEq

/-- One iteration of the per-document loop of `_evaluate_approach`: a document
counts as relevant when it matches at least one keyword, in which case
`relevant_count` gains 1 and `keyword_match_count` gains the match count. -/
def evalStep (expected_keywords : List String) (acc : Nat × Nat) (content : String) :
    Nat × Nat :=
  let m := keywordMatchCount expected_keywords content
  if 0 < m then (acc.1 + 1, acc.2 + m) else acc

/-- The per-document loop of `_evaluate_approach` for one test query:
`relevant_count` and `keyword_match_count` accumulate over the retrieved
documents, and `precision` is `relevant_count / len(retrieved_docs)` (0 when
nothing was retrieved). -/
def evaluate_query (expected_keywords : List String) (retrieved_docs : List String) :
    QueryEval :=
  let counts := retrieved_docs.foldl (evalStep expected_keywords) (0, 0)
  { retrieved_count := retrieved_docs.length
    relevant_count := counts.1
    keyword_match_count := counts.2
    precision := if retrieved_docs = [] then 0 else (counts.1 : ℚ) / retrieved_docs.length
    avg_keyword_matches := if retrieved_docs = [] then 0 else (counts.2 : ℚ) / retrieved_docs.length }

/-- The overall metrics of one evaluated approach, as read by
`select_best_approach`. -/
structure OverallMetrics where
  overall_precision : ℚ
  avg_keyword_score : ℚ
deriving DecidableEq

/-- One evaluated retrieval approach. -/
structure Approach where
  name : String
  overall_metrics : OverallMetrics
deriving DecidableEq

/-- `score = (metrics["overall_precision"] * 0.7) + (metrics["avg_keyword_score"] * 0.3)`. -/
def combined_score (a : Approach) : ℚ :=
  a.overall_metrics.overall_precision * (7 / 10) + a.overall_metrics.avg_keyword_score * (3 / 10)

/-- The comparison loop of `select_best_approach`: running best and best score,
updated only on a strictly greater score. -/
def selectBestAux : List Approach → Option Approach → ℚ → Option Approach × ℚ
  | [], best, best_score => (best, best_score)
  | a :: rest, best, best_score =>
    if best_score < combined_score a then selectBestAux rest (some a) (combined_score a)
    else selectBestAux rest best best_score

/-- `select_best_approach`: scan the approaches in evaluation order starting from
`best_score = -1`, keeping the first approach that strictly exceeds the running
best score. -/
def select_best_approach (approaches : List Approach) : Option Approach × ℚ :=
  selectBestAux approaches none (-1)

end RetrievalEvaluator

/-- First example chunk for the retrieval-evaluation example: mentions dynamic
programming. -/
def exChunk1 : String := "Dynamic programming solves problems by combining subproblems."

/-- Second example chunk: mentions dynamic programming in lower case. -/
def exChunk2 : String := "A classic example of dynamic programming is Floyd-Warshall."

/-- Third example chunk: mentions neither expected keyword. -/
def exChunk3 : String := "Sorting networks compare pairs of elements in a fixed order."

/-- The expected keywords of the retrieval-evaluation example. -/
def exKeywords : List String := ["dynamic", "programming"]

/-- Two approaches with equal combined scores, for the tie-break witness. -/
def approachA : RetrievalEvaluator.Approach :=
  { name := "Semantic Search (k=3)"
    overall_metrics := { overall_precision := 1 / 2, avg_keyword_score := 1 / 2 } }

/-- Second approach of the tie-break witness, with the same combined score. -/
def approachB : RetrievalEvaluator.Approach :=
  { name := "MMR Search (k=5)"
    overall_metrics := { overall_precision := 1 / 2, avg_keyword_score := 1 / 2 } }

/-! ## LLMEvaluator (llm_evaluation.py)

The heuristic answer scoring of `_score_answer`.  Scores are rationals standing
for the Python floats (all the constants involved are exact decimals). -/

namespace LLMEvaluator

/-- A test query as consumed by `_score_answer`: only `expected_qualities` and
`topic` are read. -/
structure TestQuery where
  query : String
  expected_qualities : List String
  topic : String
deriving DecidableEq

/-- The unclamped score of `_score_answer`: base 5; out-of-corpus queries gain 5
for admitting ignorance or lose 3 otherwise; in-corpus queries gain 2 for
algorithm terminology when expected, 1.5 for >30 words when a definition is
expected, 1 for example markers when examples are expected, 1 for three or more
sentence fragments, lose 2 below 20 words, and gain 0.5 above 100 words. -/
def score_answer_raw (answer : String) (test_query : TestQuery) : ℚ :=
  let score : ℚ := 5
  let answer_lower := pyLower answer
  if test_query.topic = "not_in_dataset" then
    if (["don\x27t know", "cannot", "not contain"]).any (fun phrase => pyContains phrase answer_lower) then
      score + 5
    else score - 3
  else
    let score := if test_query.expected_qualities.contains "algorithm" then
      (if (["algorithm", "complexity", "time"]).any (fun word => pyContains word answer_lower) then
        score + 2 else score) else score
    let score := if test_query.expected_qualities.contains "definition" then
      (if 30 < (pySplitWs answer).length then score + 3 / 2 else score) else score
    let score := if test_query.expected_qualities.contains "examples" then
      (if (["example", "such as", "like", "for instance"]).any (fun word => pyContains word answer_lower) then
        score + 1 else score) else score
    let score := if 3 ≤ (pySplitChar '.' answer).length then score + 1 else score
    let score := if (pySplitWs answer).length < 20 ∧ test_query.topic ≠ "not_in_dataset" then
      score - 2 else score
    if 100 < (pySplitWs answer).length then score + 1 / 2 else score

/-- `_score_answer`: the raw heuristic score clamped to `[0, 10]` by
`max(0, min(10, score))`. -/
def score_answer (answer : String) (test_query : TestQuery) : ℚ :=
  max 0 (min 10 (score_answer_raw answer test_query))

end LLMEvaluator

/-- The prompt-scoring example query: in-corpus, expecting exactly the quality
"examples". -/
def exQuery : LLMEvaluator.TestQuery :=
  { query := "Explain dynamic programming", expected_qualities := ["examples"], topic := "algorithms" }

/-- The prompt-scoring example answer: 150 whitespace-separated words, starting
with "for example", punctuated as three sentences (three periods). -/
def exAnswer : String :=
  "for example " ++ String.intercalate " " (List.replicate 49 "aa") ++ ". "
    ++ String.intercalate " " (List.replicate 50 "aa") ++ ". "
    ++ String.intercalate " " (List.replicate 49 "aa") ++ "."

/-! ## Theorems -/

/-- The chunk loop emits one record per chunk, so its output has the same length
as its input. -/
theorem DocumentProcessor.buildDocs_length (s e : String) (t : Nat) :
    ∀ (cs : List String) (i0 : Nat),
      (DocumentProcessor.buildDocs s e t i0 cs).length = cs.length
  | [], _ => rfl
  | _ :: rest, i0 => by
    simp [DocumentProcessor.buildDocs,
      DocumentProcessor.buildDocs_length s e t rest (i0 + 1)]

/-- The record at position `k` of the chunk loop started at index `i0` carries
content `cs[k]` and index `i0 + k`. -/
theorem DocumentProcessor.buildDocs_get (s e : String) (t : Nat) :
    ∀ (cs : List String) (i0 k : Nat)
      (h : k < (DocumentProcessor.buildDocs s e t i0 cs).length) (h2 : k < cs.length),
      (DocumentProcessor.buildDocs s e t i0 cs).get ⟨k, h⟩ =
        { page_content := cs.get ⟨k, h2⟩, source := s, chunk_id := i0 + k,
          total_chunks := t, file_type := e }
  | [], _, k, h, _ => absurd h (by simp [DocumentProcessor.buildDocs])
  | _ :: _, _, 0, _, _ => rfl
  | c :: rest, i0, k + 1, h, h2 => by
    have hb : k < (DocumentProcessor.buildDocs s e t (i0 + 1) rest).length := by
      have := h
      simp only [DocumentProcessor.buildDocs, List.length_cons] at this
      omega
    have h2b : k < rest.length := Nat.lt_of_succ_lt_succ h2
    have ih := DocumentProcessor.buildDocs_get s e t rest (i0 + 1) k hb h2b
    show (DocumentProcessor.buildDocs s e t (i0 + 1) rest).get ⟨k, hb⟩ = _
    rw [ih]
    have hc : i0 + 1 + k = i0 + (k + 1) := by omega
    rw [hc]
    rfl

/-- C8: for every file path, `process_document` returns the empty sequence when
the file's extension is unsupported (no extraction) or when the extracted text is
blank after trimming; otherwise every emitted chunk record has `chunk_id` equal to
its 0-based position in the output, `total_chunks` equal to the number of chunks
emitted for the source, and consequently `chunk_id < total_chunks`. -/
theorem DocumentProcessor.process_document_spec
    (oracles : DocumentProcessor.ExtractOracles) (splitter : String → List String)
    (file_path : String) (source_name : Option String) :
    (DocumentProcessor.extracted_text oracles file_path = none →
      DocumentProcessor.process_document oracles splitter file_path source_name = []) ∧
    (∀ t, DocumentProcessor.extracted_text oracles file_path = some t → pyStrip t = "" →
      DocumentProcessor.process_document oracles splitter file_path source_name = []) ∧
    (∀ k, ∀ h : k <
        (DocumentProcessor.process_document oracles splitter file_path source_name).length,
      ((DocumentProcessor.process_document oracles splitter file_path source_name).get
          ⟨k, h⟩).chunk_id = k ∧
      ((DocumentProcessor.process_document oracles splitter file_path source_name).get
          ⟨k, h⟩).total_chunks
        = (DocumentProcessor.process_document oracles splitter file_path source_name).length ∧
      ((DocumentProcessor.process_document oracles splitter file_path source_name).get
          ⟨k, h⟩).chunk_id
        < ((DocumentProcessor.process_document oracles splitter file_path source_name).get
          ⟨k, h⟩).total_chunks) := by
  refine ⟨?_, ?_, ?_⟩
  · intro hE
    simp [DocumentProcessor.process_document, hE]
  · intro t hE hS
    simp [DocumentProcessor.process_document, hE, hS]
  · intro k h
    have hcases :
        DocumentProcessor.process_document oracles splitter file_path source_name = [] ∨
        ∃ s e cs,
          DocumentProcessor.process_document oracles splitter file_path source_name
            = DocumentProcessor.buildDocs s e cs.length 0 cs := by
      rcases hX : DocumentProcessor.extracted_text oracles file_path with _ | text
      · exact Or.inl (by simp [DocumentProcessor.process_document, hX])
      · by_cases hS : pyStrip text = ""
        · exact Or.inl (by simp [DocumentProcessor.process_document, hX, hS])
        · exact Or.inr ⟨source_name.getD (DocumentProcessor.basename file_path),
            pyLower (DocumentProcessor.splitextExt file_path), splitter text,
            by simp [DocumentProcessor.process_document, hX, hS]⟩
    rcases hcases with hnil | ⟨s, e, cs, heq⟩
    · rw [hnil] at h
      exact absurd h (by simp)
    · have h2 : k < cs.length := by
        have hk := h
        rw [heq, DocumentProcessor.buildDocs_length] at hk
        exact hk
      have hget := List.get_of_eq heq ⟨k, h⟩
      rw [hget]
      simp only [Fin.cast_mk]
      rw [DocumentProcessor.buildDocs_get s e cs.length cs 0 k _ h2]
      refine ⟨Nat.zero_add k, ?_, ?_⟩
      · rw [heq, DocumentProcessor.buildDocs_length]
      · show 0 + k < cs.length
        omega

/-- Witness for C8: on a concrete `.txt` file whose extracted text splits into two
chunks, the record at position 0 has `chunk_id = 0`, `total_chunks` equal to the
number of emitted records, and `chunk_id < total_chunks`. -/
theorem DocumentProcessor.process_document_spec_witness :
    ((DocumentProcessor.process_document wOracles wSplitter "data/notes.txt" none).get
        ⟨0, by decide⟩).chunk_id = 0 ∧
    ((DocumentProcessor.process_document wOracles wSplitter "data/notes.txt" none).get
        ⟨0, by decide⟩).total_chunks
      = (DocumentProcessor.process_document wOracles wSplitter "data/notes.txt" none).length ∧
    ((DocumentProcessor.process_document wOracles wSplitter "data/notes.txt" none).get
        ⟨0, by decide⟩).chunk_id
      < ((DocumentProcessor.process_document wOracles wSplitter "data/notes.txt" none).get
        ⟨0, by decide⟩).total_chunks :=
  (DocumentProcessor.process_document_spec wOracles wSplitter "data/notes.txt" none).2.2
    0 (by decide)

/-- C9: reading the telemetry store when the file is missing or holds corrupt
(non-parseable) content yields the empty-store result — empty `feedback` and
`interactions` arrays — instead of propagating the exception: `_load_data` catches
`JSONDecodeError` and `FileNotFoundError` and returns the empty store, and both
read accessors therefore return empty lists. -/
theorem FeedbackStorage.load_data_degrades (fc : FeedbackStorage.FileContent)
    (h : fc = .missing ∨ fc = .corrupt) :
    FeedbackStorage.load_data fc = ⟨[], []⟩ ∧
    FeedbackStorage.get_all_feedback fc = [] ∧
    FeedbackStorage.get_all_interactions fc = [] := by
  rcases h with h | h <;> subst h <;> exact ⟨rfl, rfl, rfl⟩

/-- Witness for C9: the missing-file state satisfies the hypothesis and yields the
empty store. -/
theorem FeedbackStorage.load_data_degrades_witness :
    (FeedbackStorage.FileContent.missing = FeedbackStorage.FileContent.missing ∨
      FeedbackStorage.FileContent.missing = FeedbackStorage.FileContent.corrupt) ∧
    (FeedbackStorage.load_data .missing = ⟨[], []⟩ ∧
      FeedbackStorage.get_all_feedback .missing = [] ∧
      FeedbackStorage.get_all_interactions .missing = []) :=
  ⟨Or.inl rfl, FeedbackStorage.load_data_degrades .missing (Or.inl rfl)⟩

/-- C10: for every store state and every input, `add_feedback` appends exactly one
entry at the end of the `feedback` array and leaves the `interactions` array
unchanged, and `add_interaction` appends exactly one entry at the end of the
`interactions` array and leaves the `feedback` array unchanged; since each new
array is the old array followed by the single new entry, no existing entry is
modified or removed by either operation. -/
theorem FeedbackStorage.add_ops_frame (fc : FeedbackStorage.FileContent)
    (now q a ft : String) (sc : Int) (c : Option String) (al : Int) (rt : ℚ) :
    (FeedbackStorage.load_data (FeedbackStorage.add_feedback fc now q a ft sc c)).feedback
        = (FeedbackStorage.load_data fc).feedback
            ++ [FeedbackStorage.mkFeedbackEntry now q a ft sc c] ∧
    (FeedbackStorage.load_data (FeedbackStorage.add_feedback fc now q a ft sc c)).interactions
        = (FeedbackStorage.load_data fc).interactions ∧
    (FeedbackStorage.load_data (FeedbackStorage.add_interaction fc now q al sc rt)).interactions
        = (FeedbackStorage.load_data fc).interactions
            ++ [FeedbackStorage.mkInteractionEntry now q al sc rt] ∧
    (FeedbackStorage.load_data (FeedbackStorage.add_interaction fc now q al sc rt)).feedback
        = (FeedbackStorage.load_data fc).feedback := by
  cases fc <;> exact ⟨rfl, rfl, rfl, rfl⟩

/-- C1 counterexample: `query` is not total over pipeline states — on the fully
uninitialized pipeline (no vector store, no QA chain), `create_qa_chain` runs
outside the `try` block and its `ValueError("Vector store not initialized")`
escapes `query`, for an ordinary question string and a chain that would have
succeeded. -/
theorem RAGPipeline.query_raises_uninitialized :
    RAGPipeline.query uninitState trivialChain "What is an algorithm?"
      = .error "Vector store not initialized" := rfl

/-- C1 (amended): for every string `q`, whenever the QA chain is built or the
vector store is initialized (so `create_qa_chain` cannot raise), `query q`
returns a well-formed Query Result and never raises; any failure during the
chain invocation is converted into a result whose answer is the human-readable
error message (in particular non-empty), whose sources list is empty, and whose
`error` field carries the underlying cause; on success the answer is the chain's
answer text and `error` is unset. -/
theorem RAGPipeline.query_total_when_ready (st : RAGPipeline.PipelineState)
    (chain : String → Except String RAGPipeline.ChainResult) (q : String)
    (h : st.qa_chain = true ∨ st.vector_store = true) :
    ∃ r, RAGPipeline.query st chain q = .ok r ∧ r.question = q ∧
      (∀ e, chain q = .error e →
        r.answer = "An error occurred while processing your question: " ++ e ∧
        r.answer ≠ "" ∧ r.sources = [] ∧ r.num_sources = 0 ∧ r.error = some e) ∧
      (∀ cr, chain q = .ok cr →
        r.answer = cr.result ∧ r.error = none ∧
        r.sources = cr.source_documents.map RAGPipeline.mkSourceInfo ∧
        r.num_sources = r.sources.length) := by
  have hcond : ¬(st.qa_chain = false ∧ st.vector_store = false) := by
    rcases h with h | h <;> simp [h]
  unfold RAGPipeline.query
  rw [if_neg hcond]
  cases hc : chain q with
  | ok cr =>
    refine ⟨_, rfl, rfl, ?_, ?_⟩
    · intro e he
      exact absurd he (by simp)
    · intro cr2 he
      cases he
      exact ⟨rfl, rfl, rfl, rfl⟩
  | error e =>
    refine ⟨_, rfl, rfl, ?_, ?_⟩
    · intro e2 he
      cases he
      refine ⟨rfl, ?_, rfl, rfl, rfl⟩
      intro hemp
      have hemp2 : "An error occurred while processing your question: " ++ e = "" := hemp
      have hdata := congrArg String.data hemp2
      rw [String.data_append] at hdata
      simp at hdata
    · intro cr2 he
      exact absurd he (by simp)

/-- Witness for C1 (amended): a loaded vector store and a chain that raises; the
query is converted into a well-formed error result. -/
theorem RAGPipeline.query_total_when_ready_witness :
    (readyState.qa_chain = true ∨ readyState.vector_store = true) ∧
    (∃ r, RAGPipeline.query readyState failingChain "" = .ok r ∧ r.question = "" ∧
      (∀ e, failingChain "" = .error e →
        r.answer = "An error occurred while processing your question: " ++ e ∧
        r.answer ≠ "" ∧ r.sources = [] ∧ r.num_sources = 0 ∧ r.error = some e) ∧
      (∀ cr, failingChain "" = .ok cr →
        r.answer = cr.result ∧ r.error = none ∧
        r.sources = cr.source_documents.map RAGPipeline.mkSourceInfo ∧
        r.num_sources = r.sources.length)) :=
  ⟨Or.inr rfl, RAGPipeline.query_total_when_ready readyState failingChain "" (Or.inr rfl)⟩

/-- C2 (code bug): `create_vector_store` promises batching in its docstring and
defines `batch_size = 5000`, but the variable is dead — on 6000 chunk records
(exceeding the limit) it succeeds with a single unsplit `Qdrant.from_documents`
call carrying all 6000 documents to the embedding provider, and no
`BatchSizeExceeded` error exists anywhere in the code. -/
theorem RAGPipeline.create_vector_store_single_oversized_call :
    RAGPipeline.create_vector_store none (List.replicate 6000 someDoc)
      = .ok (6000, [List.replicate 6000 someDoc]) ∧
    RAGPipeline.batch_size < (List.replicate 6000 someDoc).length := by
  have hlen : (List.replicate 6000 someDoc).length = 6000 := List.length_replicate _ _
  have hne : List.replicate 6000 someDoc ≠ [] := by
    intro hn
    rw [hn] at hlen
    exact absurd hlen (by norm_num)
  constructor
  · rw [RAGPipeline.create_vector_store, if_neg hne, hlen]
    norm_num
  · rw [hlen]
    norm_num [RAGPipeline.batch_size]

/-- C3: initialization without `force_recreate` is idempotent — on any state
whose collection exists with a nonzero point count, `initialize_vector_store`
performs no creation or upsert and leaves the collection (hence its point count)
unchanged, only marking the store as loaded; and on a collection reporting zero
points (the self-healing check) the store is treated as absent and recreated
from the provided records. -/
theorem RAGPipeline.initVectorStore_idempotent (st : RAGPipeline.PipelineState)
    (documents : Option (List Document)) (dataDirDocs : List Document) :
    (∀ n, st.collection = some n → 0 < n →
      RAGPipeline.initVectorStore st documents dataDirDocs false
        = .ok ({ st with vector_store := true }, true)) ∧
    (∀ l, st.collection = some 0 → documents = some l → l ≠ [] →
      RAGPipeline.initVectorStore st documents dataDirDocs false
        = .ok ({ st with collection := some l.length, vector_store := true }, true)) := by
  constructor
  · intro n hc hn
    have hne : n ≠ 0 := Nat.pos_iff_ne_zero.mp hn
    simp [RAGPipeline.initVectorStore, RAGPipeline.load_vector_store, hc, hne]
  · intro l hc hd hl
    subst hd
    simp [RAGPipeline.initVectorStore, RAGPipeline.load_vector_store, hc,
      RAGPipeline.create_vector_store, hl]

/-- Witness for C3: a second initialization of a 3-point collection is a no-op on
the collection, and an empty (0-point) collection is recreated from one record. -/
theorem RAGPipeline.initVectorStore_idempotent_witness :
    RAGPipeline.initVectorStore populatedState none [] false
      = .ok ({ populatedState with vector_store := true }, true) ∧
    RAGPipeline.initVectorStore zeroPointState (some [someDoc]) [] false
      = .ok ({ zeroPointState with collection := some 1, vector_store := true }, true) :=
  ⟨(RAGPipeline.initVectorStore_idempotent populatedState none []).1 3 rfl (by norm_num),
   (RAGPipeline.initVectorStore_idempotent zeroPointState (some [someDoc]) []).2
      [someDoc] rfl rfl (by simp)⟩

/-- C4: for every non-empty record list and every prior collection state
(present, absent, or populated — deleting an absent collection is treated as
success), forced re-initialization succeeds, the resulting collection holds
exactly one point per record, and `get_vector_store_stats` reports that count as
`total_documents`. -/
theorem RAGPipeline.initVectorStore_force_recreate (st : RAGPipeline.PipelineState)
    (docs dataDirDocs : List Document) (h : docs ≠ []) :
    RAGPipeline.initVectorStore st (some docs) dataDirDocs true
      = .ok ({ st with collection := some docs.length, vector_store := true }, true) ∧
    RAGPipeline.get_vector_store_stats
        { st with collection := some docs.length, vector_store := true }
      = .active docs.length := by
  constructor
  · simp [RAGPipeline.initVectorStore, RAGPipeline.create_vector_store, h]
  · simp [RAGPipeline.get_vector_store_stats]

/-- Witness for C4: force-recreating from one record on a state with no prior
collection succeeds and reports one point. -/
theorem RAGPipeline.initVectorStore_force_recreate_witness :
    RAGPipeline.initVectorStore uninitState (some [someDoc]) [] true
      = .ok ({ uninitState with collection := some 1, vector_store := true }, true) ∧
    RAGPipeline.get_vector_store_stats
        { uninitState with collection := some 1, vector_store := true }
      = .active 1 :=
  RAGPipeline.initVectorStore_force_recreate uninitState [someDoc] [] (by simp)

/-- A document matches at least one keyword exactly when some expected keyword
occurs case-insensitively in its content. -/
theorem RetrievalEvaluator.keywordMatchCount_pos_iff (kws : List String) (c : String) :
    0 < RetrievalEvaluator.keywordMatchCount kws c ↔
      (kws.any (fun k => pyContains (pyLower k) (pyLower c))) = true := by
  simp [RetrievalEvaluator.keywordMatchCount, List.length_pos, List.filter_eq_nil_iff,
    List.any_eq_true]

/-- Boolean form of `keywordMatchCount_pos_iff`. -/
theorem RetrievalEvaluator.relevant_bool (kws : List String) (c : String) :
    (decide (0 < RetrievalEvaluator.keywordMatchCount kws c))
      = kws.any (fun k => pyContains (pyLower k) (pyLower c)) := by
  by_cases h : 0 < RetrievalEvaluator.keywordMatchCount kws c
  · rw [decide_eq_true h]
    exact ((RetrievalEvaluator.keywordMatchCount_pos_iff kws c).mp h).symm
  · rw [decide_eq_false h]
    cases hb : kws.any (fun k => pyContains (pyLower k) (pyLower c)) with
    | false => rfl
    | true => exact absurd ((RetrievalEvaluator.keywordMatchCount_pos_iff kws c).mpr hb) h

/-- The first component of the evaluation fold counts the relevant documents on
top of its accumulator. -/
theorem RetrievalEvaluator.foldl_evalStep_fst (kws : List String) :
    ∀ (docs : List String) (a b : Nat),
      (docs.foldl (RetrievalEvaluator.evalStep kws) (a, b)).1
        = a + docs.countP (fun c => decide (0 < RetrievalEvaluator.keywordMatchCount kws c))
  | [], a, b => by simp
  | c :: rest, a, b => by
    rw [List.foldl_cons, List.countP_cons]
    by_cases h : 0 < RetrievalEvaluator.keywordMatchCount kws c
    · have hstep : RetrievalEvaluator.evalStep kws (a, b) c
          = (a + 1, b + RetrievalEvaluator.keywordMatchCount kws c) := by
        simp [RetrievalEvaluator.evalStep, h]
      rw [hstep, RetrievalEvaluator.foldl_evalStep_fst kws rest (a + 1) _]
      simp [h]
      omega
    · have hstep : RetrievalEvaluator.evalStep kws (a, b) c = (a, b) := by
        simp [RetrievalEvaluator.evalStep, h]
      rw [hstep, RetrievalEvaluator.foldl_evalStep_fst kws rest a b]
      simp [h]

/-- C5: for every test query with a non-empty retrieved set, the per-query
`relevant_count` is the number of retrieved chunks containing at least one
expected keyword as a case-insensitive substring, and `precision` equals
`relevant_count / retrieved_count`. -/
theorem RetrievalEvaluator.evaluate_query_precision (kws docs : List String)
    (h : docs ≠ []) :
    (RetrievalEvaluator.evaluate_query kws docs).relevant_count
      = docs.countP (fun c => kws.any (fun k => pyContains (pyLower k) (pyLower c))) ∧
    (RetrievalEvaluator.evaluate_query kws docs).precision
      = ((RetrievalEvaluator.evaluate_query kws docs).relevant_count : ℚ)
          / ((RetrievalEvaluator.evaluate_query kws docs).retrieved_count : ℚ) := by
  have hcount : (docs.foldl (RetrievalEvaluator.evalStep kws) (0, 0)).1
      = docs.countP (fun c => kws.any (fun k => pyContains (pyLower k) (pyLower c))) := by
    rw [RetrievalEvaluator.foldl_evalStep_fst kws docs 0 0, Nat.zero_add]
    exact List.countP_congr (fun c _ => by rw [RetrievalEvaluator.relevant_bool kws c])
  constructor
  · simpa [RetrievalEvaluator.evaluate_query] using hcount
  · simp [RetrievalEvaluator.evaluate_query, h]

/-- Witness for C5: one test query with expected keywords dynamic/programming and
3 retrieved chunks of which exactly 2 contain a keyword yields precision 2/3. -/
theorem RetrievalEvaluator.evaluate_query_precision_witness :
    (RetrievalEvaluator.evaluate_query exKeywords [exChunk1, exChunk2, exChunk3]).relevant_count
        = 2 ∧
    (RetrievalEvaluator.evaluate_query exKeywords [exChunk1, exChunk2, exChunk3]).precision
        = 2 / 3 := by
  have h := RetrievalEvaluator.evaluate_query_precision exKeywords
    [exChunk1, exChunk2, exChunk3] (by simp)
  have hcount : ([exChunk1, exChunk2, exChunk3].countP
      (fun c => exKeywords.any (fun k => pyContains (pyLower k) (pyLower c)))) = 2 := by
    decide
  have hret : (RetrievalEvaluator.evaluate_query exKeywords
      [exChunk1, exChunk2, exChunk3]).retrieved_count = 3 := rfl
  refine ⟨h.1.trans hcount, ?_⟩
  rw [h.2, h.1, hcount, hret]
  norm_num

/-- Invariant of the comparison loop of `select_best_approach`: either no element
beats the running score and the running pair is returned, or the result is the
first element that strictly beats the running score among those maximizing the
combined score. -/
theorem RetrievalEvaluator.selectBestAux_spec :
    ∀ (l : List RetrievalEvaluator.Approach) (best : Option RetrievalEvaluator.Approach)
      (bs : ℚ),
      ((∀ a ∈ l, RetrievalEvaluator.combined_score a ≤ bs) ∧
        RetrievalEvaluator.selectBestAux l best bs = (best, bs)) ∨
      (∃ i : Fin l.length,
        RetrievalEvaluator.selectBestAux l best bs
          = (some (l.get i), RetrievalEvaluator.combined_score (l.get i)) ∧
        bs < RetrievalEvaluator.combined_score (l.get i) ∧
        (∀ a ∈ l, RetrievalEvaluator.combined_score a
          ≤ RetrievalEvaluator.combined_score (l.get i)) ∧
        (∀ j : Fin l.length, (j : Nat) < (i : Nat) →
          RetrievalEvaluator.combined_score (l.get j)
            < RetrievalEvaluator.combined_score (l.get i)))
  | [], best, bs => Or.inl ⟨by simp, rfl⟩
  | a :: t, best, bs => by
    by_cases h : bs < RetrievalEvaluator.combined_score a
    · rw [show RetrievalEvaluator.selectBestAux (a :: t) best bs
          = RetrievalEvaluator.selectBestAux t (some a) (RetrievalEvaluator.combined_score a)
        from by simp [RetrievalEvaluator.selectBestAux, h]]
      rcases RetrievalEvaluator.selectBestAux_spec t (some a)
          (RetrievalEvaluator.combined_score a) with ⟨hle, heq⟩ | ⟨i, heq, hlt, hle, hfirst⟩
      · refine Or.inr ⟨⟨0, by simp⟩, heq, h, ?_, ?_⟩
        · intro x hx
          rcases List.mem_cons.mp hx with hx | hx
          · subst hx; exact le_refl _
          · exact hle x hx
        · intro j hj
          exact absurd hj (by simp)
      · refine Or.inr ⟨⟨(i : Nat) + 1, by simp⟩, heq, h.trans hlt, ?_, ?_⟩
        · intro x hx
          rcases List.mem_cons.mp hx with hx | hx
          · subst hx; exact le_of_lt hlt
          · exact hle x hx
        · intro j hj
          rcases j with ⟨jv, hjv⟩
          cases jv with
          | zero => exact hlt
          | succ jw =>
            exact hfirst ⟨jw, by simpa using hjv⟩ (by simpa using hj)
    · rw [show RetrievalEvaluator.selectBestAux (a :: t) best bs
          = RetrievalEvaluator.selectBestAux t best bs
        from by simp [RetrievalEvaluator.selectBestAux, h]]
      rcases RetrievalEvaluator.selectBestAux_spec t best bs with
        ⟨hle, heq⟩ | ⟨i, heq, hlt, hle, hfirst⟩
      · refine Or.inl ⟨?_, heq⟩
        intro x hx
        rcases List.mem_cons.mp hx with hx | hx
        · subst hx; exact le_of_not_lt h
        · exact hle x hx
      · refine Or.inr ⟨⟨(i : Nat) + 1, by simp⟩, heq, hlt, ?_, ?_⟩
        · intro x hx
          rcases List.mem_cons.mp hx with hx | hx
          · subst hx; exact (le_of_not_lt h).trans (le_of_lt hlt)
          · exact hle x hx
        · intro j hj
          rcases j with ⟨jv, hjv⟩
          cases jv with
          | zero => exact lt_of_le_of_lt (le_of_not_lt h) hlt
          | succ jw =>
            exact hfirst ⟨jw, by simpa using hjv⟩ (by simpa using hj)

/-- C6: for every non-empty sequence of evaluated configurations (whose combined
scores exceed the initial sentinel -1, as all real metric values do),
`select_best_approach` returns the configuration maximizing
`0.7 * overall_precision + 0.3 * avg_keyword_score`, and on ties the one
encountered first in evaluation order: every strictly earlier configuration has a
strictly smaller combined score. -/
theorem RetrievalEvaluator.select_best_approach_spec
    (l : List RetrievalEvaluator.Approach) (hne : l ≠ [])
    (hgt : ∀ a ∈ l, -1 < RetrievalEvaluator.combined_score a) :
    ∃ i : Fin l.length,
      RetrievalEvaluator.select_best_approach l
        = (some (l.get i), RetrievalEvaluator.combined_score (l.get i)) ∧
      (∀ a ∈ l, RetrievalEvaluator.combined_score a
        ≤ RetrievalEvaluator.combined_score (l.get i)) ∧
      (∀ j : Fin l.length, (j : Nat) < (i : Nat) →
        RetrievalEvaluator.combined_score (l.get j)
          < RetrievalEvaluator.combined_score (l.get i)) := by
  rcases RetrievalEvaluator.selectBestAux_spec l none (-1) with ⟨hle, _⟩ | ⟨i, heq, _, hle, hfirst⟩
  · rcases l with _ | ⟨a, t⟩
    · exact absurd rfl hne
    · exact absurd (hle a (List.mem_cons_self a t)) (not_le_of_lt (hgt a (List.mem_cons_self a t)))
  · exact ⟨i, heq, hle, hfirst⟩

/-- Witness for C6: two approaches with equal combined scores; the theorem forces
the selected index to be the first, so the first-encountered approach wins the
tie. -/
theorem RetrievalEvaluator.select_best_approach_spec_witness :
    ([approachA, approachB] ≠ [] ∧
      ∀ a ∈ [approachA, approachB], -1 < RetrievalEvaluator.combined_score a) ∧
    (∃ i : Fin ([approachA, approachB] : List RetrievalEvaluator.Approach).length,
      RetrievalEvaluator.select_best_approach [approachA, approachB]
        = (some (([approachA, approachB] : List RetrievalEvaluator.Approach).get i),
            RetrievalEvaluator.combined_score
              (([approachA, approachB] : List RetrievalEvaluator.Approach).get i)) ∧
      (∀ a ∈ [approachA, approachB], RetrievalEvaluator.combined_score a
        ≤ RetrievalEvaluator.combined_score
            (([approachA, approachB] : List RetrievalEvaluator.Approach).get i)) ∧
      (∀ j : Fin ([approachA, approachB] : List RetrievalEvaluator.Approach).length,
        (j : Nat) < (i : Nat) →
        RetrievalEvaluator.combined_score
            (([approachA, approachB] : List RetrievalEvaluator.Approach).get j)
          < RetrievalEvaluator.combined_score
              (([approachA, approachB] : List RetrievalEvaluator.Approach).get i))) := by
  have hgt : ∀ a ∈ [approachA, approachB], -1 < RetrievalEvaluator.combined_score a := by
    intro a ha
    rcases List.mem_cons.mp ha with ha | ha
    · subst ha
      norm_num [RetrievalEvaluator.combined_score, approachA]
    · rcases List.mem_cons.mp ha with ha | ha
      · subst ha
        norm_num [RetrievalEvaluator.combined_score, approachB]
      · exact absurd ha (List.not_mem_nil a)
  exact ⟨⟨by simp, hgt⟩,
    RetrievalEvaluator.select_best_approach_spec [approachA, approachB] (by simp) hgt⟩

set_option maxRecDepth 100000

/-- C7: the answer score is always clamped to the interval [0, 10]; and the
concrete prompt-scoring example — an in-corpus query expecting exactly the
quality "examples", answered in 150 words containing "for example" across three
sentences — scores 5 (base) + 1 (example markers) + 1 (multi-sentence) + 0.5
(over 100 words) = 7.5. -/
theorem LLMEvaluator.score_answer_spec :
    (∀ (answer : String) (tq : LLMEvaluator.TestQuery),
      0 ≤ LLMEvaluator.score_answer answer tq ∧ LLMEvaluator.score_answer answer tq ≤ 10) ∧
    LLMEvaluator.score_answer exAnswer exQuery = 15 / 2 := by
  constructor
  · intro answer tq
    unfold LLMEvaluator.score_answer
    exact ⟨le_max_left 0 _, max_le (by norm_num) (min_le_left 10 _)⟩
  · have hTopic : exQuery.topic = "not_in_dataset" ↔ False := by
      simp [exQuery]
    have hAlg : exQuery.expected_qualities.contains "algorithm" = false := by decide
    have hDef : exQuery.expected_qualities.contains "definition" = false := by decide
    have hEx : exQuery.expected_qualities.contains "examples" = true := by decide
    have hMark : (["example", "such as", "like", "for instance"]).any
        (fun word => pyContains word (pyLower exAnswer)) = true := by decide
    have hWords : (pySplitWs exAnswer).length = 150 := by decide
    have hSent : (pySplitChar '.' exAnswer).length = 4 := by decide
    rw [LLMEvaluator.score_answer, LLMEvaluator.score_answer_raw]
    rw [hWords, hSent]
    simp only [hTopic, hAlg, hDef, hEx, hMark, if_false, if_true]
    norm_num
